import Mathlib

/-!
Verification of the BlackRoad payroll engine (`src/payroll_system.py`).

Money is embedded as exact rationals `ℚ`, matching the exact decimal
arithmetic of Python `Decimal` on the value ranges the engine handles.
`quantHU` models `.quantize(PRECISION, rounding=ROUND_HALF_UP)`;
`quantHE` models `.quantize(PRECISION)` under the default decimal context,
whose rounding mode is `ROUND_HALF_EVEN`.
-/

namespace Payroll

/-- Rounding of `Decimal` under `ROUND_HALF_UP`: nearest integer, ties away
from zero. -/
def roundHalfUp (x : ℚ) : ℤ :=
  if 0 ≤ x then ⌊x + 1/2⌋ else -⌊-x + 1/2⌋

/-- Rounding of `Decimal` under the default context mode `ROUND_HALF_EVEN`:
nearest integer, ties to the even neighbour. -/
def roundHalfEven (x : ℚ) : ℤ :=
  if Int.fract x = 1/2 then (if ⌊x⌋ % 2 = 0 then ⌊x⌋ else ⌊x⌋ + 1) else round x

/-- Embeds `value.quantize(PRECISION, rounding=ROUND_HALF_UP)`. -/
def quantHU (x : ℚ) : ℚ := (roundHalfUp (x * 100) : ℚ) / 100

/-- Embeds `value.quantize(PRECISION)` (default rounding, half-even). -/
def quantHE (x : ℚ) : ℚ := (roundHalfEven (x * 100) : ℚ) / 100

/-- Constant `SS_RATE = Decimal("0.062")`. -/
def SS_RATE : ℚ := 62/1000

/-- Constant `SS_WAGE_BASE = Decimal("168600")`. -/
def SS_WAGE_BASE : ℚ := 168600

/-- Constant `MEDICARE_RATE = Decimal("0.0145")`. -/
def MEDICARE_RATE : ℚ := 145/10000

/-- Constant `ADDITIONAL_MEDICARE_RATE = Decimal("0.009")`. -/
def ADDITIONAL_MEDICARE_RATE : ℚ := 9/1000

/-- Constant `ADDITIONAL_MEDICARE_THRESHOLD = Decimal("200000")`. -/
def ADDITIONAL_MEDICARE_THRESHOLD : ℚ := 200000

/-- Constant `W4_ALLOWANCE_2024 = Decimal("4300")`. -/
def W4_ALLOWANCE_2024 : ℚ := 4300

/-- Table `FEDERAL_BRACKETS_SINGLE_2024`: (lower, upper option, rate). -/
def FEDERAL_BRACKETS_SINGLE_2024 : List (ℚ × Option ℚ × ℚ) :=
  [(0, some 11600, 10/100), (11600, some 47150, 12/100),
   (47150, some 100525, 22/100), (100525, some 191950, 24/100),
   (191950, some 243725, 32/100), (243725, some 609350, 35/100),
   (609350, none, 37/100)]

/-- Table `FEDERAL_BRACKETS_MFJ_2024`. -/
def FEDERAL_BRACKETS_MFJ_2024 : List (ℚ × Option ℚ × ℚ) :=
  [(0, some 23200, 10/100), (23200, some 94300, 12/100),
   (94300, some 201050, 22/100), (201050, some 383900, 24/100),
   (383900, some 487450, 32/100), (487450, some 731200, 35/100),
   (731200, none, 37/100)]

/-- Lookup `STANDARD_DEDUCTIONS.get(filing_status, Decimal("14600"))`:
the source dict has entries for single, married and head_of_household,
and the call site supplies 14600 as the default for any other key. -/
def STANDARD_DEDUCTIONS_get (fs : String) : ℚ :=
  if fs = "single" then 14600
  else if fs = "married" then 29200
  else if fs = "head_of_household" then 21900
  else 14600

/-- Bracket loop of `withhold_taxes`: walk the schedule, `break` once the
adjusted income is at or below the bracket lower bound, `continue` past a
non-positive in-bracket amount, and accumulate the per-bracket tax rounded
half-up to the cent. -/
def bracketTax (adj : ℚ) : List (ℚ × Option ℚ × ℚ) → ℚ
  | [] => 0
  | (lo, hi, rate) :: rest =>
    if adj ≤ lo then 0
    else
      (if min adj (hi.getD adj) - lo ≤ 0 then 0
       else quantHU ((min adj (hi.getD adj) - lo) * rate)) + bracketTax adj rest

/-- Return value of `withhold_taxes`: (federal_tax, ss_tax, medicare_tax). -/
structure TaxTriple where
  federal : ℚ
  ss : ℚ
  medicare : ℚ
deriving DecidableEq

/-- Embeds `PayrollService.withhold_taxes`.  Note the source divides the
annual tax by the literal 26 regardless of pay frequency, and compares the
`ytd_ss` argument directly against `SS_WAGE_BASE`. -/
def withhold_taxes (gross annual_gross : ℚ) (filing_status : String)
    (w4_allowances : ℤ) (ytd_ss : ℚ) : TaxTriple :=
  let adj_annual := max 0 (annual_gross - W4_ALLOWANCE_2024 * (w4_allowances : ℚ)
      - STANDARD_DEDUCTIONS_get filing_status)
  let brackets := if filing_status = "married" then FEDERAL_BRACKETS_MFJ_2024
      else FEDERAL_BRACKETS_SINGLE_2024
  let annual_tax := bracketTax adj_annual brackets
  let federal_period := quantHU (annual_tax / 26)
  let ss_taxable := min gross (max 0 (SS_WAGE_BASE - ytd_ss))
  let ss_tax := quantHU (ss_taxable * SS_RATE)
  let base_medicare := quantHU (gross * MEDICARE_RATE)
  let ytd_with_this := ytd_ss + gross
  let medicare_tax :=
    if ADDITIONAL_MEDICARE_THRESHOLD < ytd_with_this then
      base_medicare + quantHU (min gross (ytd_with_this - ADDITIONAL_MEDICARE_THRESHOLD)
        * ADDITIONAL_MEDICARE_RATE)
    else base_medicare
  ⟨federal_period, ss_tax, medicare_tax⟩

/-- Enum `PayFrequency`. -/
inductive PayFrequency
  | weekly
  | biweekly
  | semi_monthly
  | monthly
deriving DecidableEq

/-- Property `PayFrequency.periods_per_year`. -/
def PayFrequency.periods_per_year : PayFrequency → ℕ
  | .weekly => 52
  | .biweekly => 26
  | .semi_monthly => 24
  | .monthly => 12

/-- Enum `EmployeeStatus`. -/
inductive EmployeeStatus
  | active
  | terminated
  | on_leave
deriving DecidableEq

/-- Enum `DeductionType`. -/
inductive DeductionType
  | pre_tax_401k
  | pre_tax_hsa
  | pre_tax_fsa
  | pre_tax_health
  | post_tax_roth
  | post_tax_garnishment
  | post_tax_other
deriving DecidableEq

/-- Dataclass `Deduction` (calculation-relevant fields). -/
structure Deduction where
  id : String
  employee_id : String
  deduction_type : DeductionType
  amount : ℚ
  is_percentage : Bool := false
  active : Bool := true
deriving DecidableEq

/-- Dataclass `Employee` (calculation-relevant fields; display-only fields
such as name, state, hire date are omitted since no computation reads
them). -/
structure Employee where
  id : String
  salary : ℚ
  hourly_rate : Option ℚ
  pay_frequency : PayFrequency
  filing_status : String
  w4_allowances : ℤ
  status : EmployeeStatus
  ytd_gross : ℚ := 0
  ytd_federal_tax : ℚ := 0
  ytd_ss_tax : ℚ := 0
  ytd_medicare_tax : ℚ := 0
  ytd_deductions : ℚ := 0
deriving DecidableEq

/-- Property `Employee.period_gross`: annual salary divided by periods per
year, quantized with the default (half-even) rounding mode. -/
def Employee.period_gross (e : Employee) : ℚ :=
  quantHE (e.salary / (e.pay_frequency.periods_per_year : ℚ))

/-- Membership of a deduction type in the `pre_tax_types` set built inside
`calculate_net_pay`. -/
def DeductionType.isPreTax : DeductionType → Bool
  | .pre_tax_401k | .pre_tax_hsa | .pre_tax_fsa | .pre_tax_health => true
  | _ => false

/-- Effective per-period amount of one deduction: percentage deductions are
`(gross * amount / 100).quantize(PRECISION)` (default half-even rounding),
otherwise the flat amount. -/
def dedAmount (gross : ℚ) (d : Deduction) : ℚ :=
  if d.is_percentage then quantHE (gross * d.amount / 100) else d.amount

/-- Pre-tax bucket total of the deduction loop in `calculate_net_pay`. -/
def preTaxTotal (gross : ℚ) (deds : List Deduction) : ℚ :=
  deds.foldl (fun acc d => if d.deduction_type.isPreTax then acc + dedAmount gross d else acc) 0

/-- Post-tax bucket total of the deduction loop in `calculate_net_pay`. -/
def postTaxTotal (gross : ℚ) (deds : List Deduction) : ℚ :=
  deds.foldl (fun acc d => if d.deduction_type.isPreTax then acc else acc + dedAmount gross d) 0

/-- Result dict of `calculate_net_pay`. -/
structure PayrollResult where
  gross : ℚ
  regular_hours : Option ℚ
  overtime_hours : Option ℚ
  pre_tax_deductions : ℚ
  taxable_gross : ℚ
  federal_tax : ℚ
  state_tax : ℚ
  ss_tax : ℚ
  medicare_tax : ℚ
  post_tax_deductions : ℚ
  total_taxes : ℚ
  net : ℚ
deriving DecidableEq

/-- Gross-pay branch of `calculate_net_pay`: hourly with hours supplied
splits regular/overtime and quantizes with the default rounding; otherwise
the salaried `period_gross` is used. -/
def grossCalc (e : Employee) (hours overtime_hours : Option ℚ) :
    ℚ × Option ℚ × Option ℚ :=
  match e.hourly_rate, hours with
  | some rate, some h =>
    let regular := min h 40
    let overtime := max 0 (h - 40) + overtime_hours.getD 0
    (quantHE (regular * rate + overtime * rate * (3/2)), some regular, some overtime)
  | _, _ => (e.period_gross, none, none)

/-- Embeds `PayrollService.calculate_net_pay`.  The `deds` argument stands
for `self.db.get_deductions(employee.id)`, the employee's active
deductions.  A `ValueError` for a non-active employee is modelled as
`none`; note the source applies no guard between `taxable_gross = gross -
pre_tax_total` and the tax calls. -/
def calculate_net_pay (e : Employee) (deds : List Deduction)
    (hours overtime_hours : Option ℚ) : Option PayrollResult :=
  if e.status = EmployeeStatus.active then
    let g := grossCalc e hours overtime_hours
    let pre_tax_total := preTaxTotal g.1 deds
    let post_tax_total := postTaxTotal g.1 deds
    let taxable_gross := g.1 - pre_tax_total
    let annual_taxable := taxable_gross * (e.pay_frequency.periods_per_year : ℚ)
    let t := withhold_taxes taxable_gross annual_taxable e.filing_status
        e.w4_allowances e.ytd_ss_tax
    let state_tax := quantHU (taxable_gross * (5/100))
    let total_taxes := t.federal + t.ss + t.medicare + state_tax
    some { gross := g.1, regular_hours := g.2.1, overtime_hours := g.2.2,
           pre_tax_deductions := pre_tax_total, taxable_gross := taxable_gross,
           federal_tax := t.federal, state_tax := state_tax,
           ss_tax := t.ss, medicare_tax := t.medicare,
           post_tax_deductions := post_tax_total, total_taxes := total_taxes,
           net := g.1 - pre_tax_total - total_taxes - post_tax_total }
  else none

/-- Loop body state of `bulk_process`: succeeded results in order, and the
`(employee_id, str(error))` pairs appended to the local `errors` list. -/
def bulk_process_full (emps : List (Employee × List Deduction)) :
    List PayrollResult × List (String × String) :=
  emps.foldl
    (fun acc x =>
      match calculate_net_pay x.1 x.2 none none with
      | some r => (acc.1 ++ [r], acc.2)
      | none => (acc.1, acc.2 ++ [(x.1.id, "Employee " ++ x.1.id ++ " is not active")]))
    ([], [])

/-- Embeds the return value of `PayrollService.bulk_process`: only the list
of successful stubs is returned; the `errors` list is logged and dropped. -/
def bulk_process (emps : List (Employee × List Deduction)) : List PayrollResult :=
  (bulk_process_full emps).1

/-- Modelled from IEEE-754 binary64, the type behind SQLite `REAL`: the
round-to-nearest-even value of a positive rational at 53 significant
bits.  `update_ytd` routes every accumulator through
`CAST(CAST(ytd AS REAL) + ? AS TEXT)`, so both operands and the sum take
values of this form. -/
def dbl (q : ℚ) : ℚ :=
  if 0 < q then
    (roundHalfEven (q * (2:ℚ) ^ ((52:ℤ) - Int.log 2 q)) : ℚ) * (2:ℚ) ^ (Int.log 2 q - (52:ℤ))
  else 0

/-- Modelled from SQLite `CAST(... AS TEXT)` on a `REAL`: the classic
renderer formats the double with 15 significant decimal digits
(`%!.15g`), i.e. rounds the value to the nearest multiple of
`10 ^ (log10 - 14)`; newer versions emit the shortest round-tripping
decimal instead.  The theorem below applies this only at a value that is
an integer of exactly 15 digits and exactly representable in binary64,
where the 15-digit rendering, the shortest round-tripping rendering and
the identity all agree on the stored value. -/
def render15 (x : ℚ) : ℚ :=
  if 0 < x then
    (roundHalfEven (x / (10:ℚ) ^ (Int.log 10 x - (14:ℤ))) : ℚ)
      * (10:ℚ) ^ (Int.log 10 x - (14:ℤ))
  else 0

/-- Embeds one accumulator update of `PayrollDB.update_ytd`: the stored
text is cast to `REAL`, the bound parameter is coerced to `REAL`, the
binary64 sum is computed, and the resulting double is rendered back to
decimal text by the `CAST(... AS TEXT)`. -/
def update_ytd_real (old delta : ℚ) : ℚ := render15 (dbl (dbl old + dbl delta))

/-! Helper lemmas. -/

/-- Ceiling logarithm evaluation used by the binary64 model. -/
lemma natClog_2_100 : Nat.clog 2 100 = 7 := by
  rw [Nat.clog_of_two_le (by norm_num) (by norm_num)]
  norm_num
  rw [Nat.clog_of_two_le (by norm_num) (by norm_num)]
  norm_num
  rw [Nat.clog_of_two_le (by norm_num) (by norm_num)]
  norm_num
  rw [Nat.clog_of_two_le (by norm_num) (by norm_num)]
  norm_num
  rw [Nat.clog_of_two_le (by norm_num) (by norm_num)]
  norm_num
  rw [Nat.clog_of_two_le (by norm_num) (by norm_num)]
  norm_num
  rw [Nat.clog_of_two_le (by norm_num) (by norm_num)]
  norm_num [Nat.clog_one_right]

/-- Floor logarithm evaluation: `2 ^ 47 ≤ 140737488355328 < 2 ^ 48`. -/
lemma natLog2_pow47 : Nat.log 2 140737488355328 = 47 :=
  Nat.log_eq_of_pow_le_of_lt_pow (by norm_num) (by norm_num)

/-- Floor logarithm evaluation: `10 ^ 14 ≤ 140737488355328 < 10 ^ 15`. -/
lemma natLog10_pow47 : Nat.log 10 140737488355328 = 14 :=
  Nat.log_eq_of_pow_le_of_lt_pow (by norm_num) (by norm_num)

/-- Binade of one hundredth: `1/128 ≤ 1/100 < 1/64`. -/
lemma intLog2_hundredth : Int.log 2 ((1:ℚ)/100) = -7 := by
  rw [Int.log_of_right_le_one _ (by norm_num)]
  norm_num [natClog_2_100]

/-- Binade of the accumulator value `2 ^ 47`. -/
lemma intLog2_pow47 : Int.log 2 ((140737488355328:ℚ)) = 47 := by
  rw [Int.log_of_one_le_right _ (by norm_num)]
  have h1 : ⌊(140737488355328:ℚ)⌋₊ = 140737488355328 := by norm_num
  rw [h1, natLog2_pow47]
  norm_num

/-- Binade of the exact sum of the two operand doubles. -/
lemma intLog2_pow47_sum :
    Int.log 2 ((140737488355328:ℚ) + 5764607523034235/576460752303423488) = 47 := by
  rw [Int.log_of_one_le_right _ (by norm_num)]
  have h1 : ⌊(140737488355328:ℚ) + 5764607523034235/576460752303423488⌋₊
      = 140737488355328 := by
    rw [Nat.floor_eq_iff (by positivity)]
    norm_num
  rw [h1, natLog2_pow47]
  norm_num

/-- Decimal magnitude of the accumulator value `2 ^ 47`. -/
lemma intLog10_pow47 : Int.log 10 ((140737488355328:ℚ)) = 14 := by
  rw [Int.log_of_one_le_right _ (by norm_num)]
  have h1 : ⌊(140737488355328:ℚ)⌋₊ = 140737488355328 := by norm_num
  rw [h1, natLog10_pow47]
  norm_num

/-- The integer `2 ^ 47` is exactly representable in binary64. -/
lemma dbl_pow47 : dbl (140737488355328:ℚ) = 140737488355328 := by
  unfold dbl
  rw [if_pos (by norm_num : (0:ℚ) < 140737488355328), intLog2_pow47]
  norm_num [roundHalfEven, Int.fract, round_eq]

/-- Binary64 value of the decimal 0.01: it is not representable and
rounds to 5764607523034235 / 2 ^ 59. -/
lemma dbl_hundredth : dbl ((1:ℚ)/100) = 5764607523034235/576460752303423488 := by
  unfold dbl
  rw [if_pos (by norm_num : (0:ℚ) < 1/100), intLog2_hundredth]
  norm_num [roundHalfEven, Int.fract, round_eq]

/-- Adding the double nearest 0.01 to `2 ^ 47` rounds straight back to
`2 ^ 47`: the increment is below half an ulp at that magnitude. -/
lemma dbl_pow47_sum : dbl ((140737488355328:ℚ) + 5764607523034235/576460752303423488)
    = 140737488355328 := by
  unfold dbl
  rw [if_pos (by positivity), intLog2_pow47_sum]
  norm_num [roundHalfEven, Int.fract, round_eq]

/-- The 15-digit decimal rendering of the integer double `2 ^ 47` is
value-exact. -/
lemma render15_pow47 : render15 (140737488355328:ℚ) = 140737488355328 := by
  unfold render15
  rw [if_pos (by norm_num : (0:ℚ) < 140737488355328), intLog10_pow47]
  norm_num [roundHalfEven, Int.fract, round_eq]

/-- Rounding half-up preserves nonnegativity. -/
lemma roundHalfUp_nonneg {x : ℚ} (hx : 0 ≤ x) : 0 ≤ roundHalfUp x := by
  unfold roundHalfUp
  rw [if_pos hx]
  exact Int.le_floor.2 (by push_cast; linarith)

/-- Cent quantization half-up preserves nonnegativity. -/
lemma quantHU_nonneg {x : ℚ} (hx : 0 ≤ x) : 0 ≤ quantHU x := by
  unfold quantHU
  have h := roundHalfUp_nonneg (x := x * 100) (by positivity)
  have h2 : (0:ℚ) ≤ (roundHalfUp (x * 100) : ℚ) := by exact_mod_cast h
  linarith

/-- Bracket walk yields a nonnegative annual tax when all rates are
nonnegative. -/
lemma bracketTax_nonneg (adj : ℚ) (l : List (ℚ × Option ℚ × ℚ))
    (hl : ∀ p ∈ l, 0 ≤ p.2.2) : 0 ≤ bracketTax adj l := by
  induction l with
  | nil => simp [bracketTax]
  | cons p rest ih =>
    obtain ⟨lo, hi, rate⟩ := p
    have h1 : 0 ≤ bracketTax adj rest :=
      ih (fun q hq => hl q (List.mem_cons_of_mem _ hq))
    have h2 : (0:ℚ) ≤ rate := hl ⟨lo, hi, rate⟩ (List.mem_cons_self _ _)
    simp only [bracketTax]
    split
    · exact le_refl 0
    · split
      · linarith
      · rename_i h3
        have h4 : 0 ≤ quantHU ((min adj (hi.getD adj) - lo) * rate) :=
          quantHU_nonneg (mul_nonneg (by linarith [lt_of_not_le h3]) h2)
        linarith

/-! Inputs used by the claim witnesses and counterexamples. -/

/-- Weekly-paid single employee, annual salary 52000, one allowance. -/
def emp2 : Employee :=
  { id := "W1", salary := 52000, hourly_rate := none, pay_frequency := .weekly,
    filing_status := "single", w4_allowances := 1, status := .active }

/-- Biweekly single employee, salary 130000, whose stored YTD SS tax of
10453.20 is exactly the tax paid on YTD SS wages equal to the full wage
base 168600. -/
def emp4 : Employee :=
  { id := "B1", salary := 130000, hourly_rate := none, pay_frequency := .biweekly,
    filing_status := "single", w4_allowances := 1, status := .active,
    ytd_ss_tax := 1045320/100 }

/-- Biweekly single employee with a 100.00 period gross. -/
def emp6 : Employee :=
  { id := "N1", salary := 2600, hourly_rate := none, pay_frequency := .biweekly,
    filing_status := "single", w4_allowances := 1, status := .active }

/-- Active flat pre-tax 401k deduction of 150.00 per period. -/
def ded6 : Deduction :=
  { id := "d1", employee_id := "N1", deduction_type := .pre_tax_401k, amount := 150 }

/-- Biweekly single employee whose exact period gross 1234.565 ends in a
half cent with an even cent digit below it. -/
def emp9 : Employee :=
  { id := "R1", salary := 3209869/100, hourly_rate := none, pay_frequency := .biweekly,
    filing_status := "single", w4_allowances := 1, status := .active }

/-- Zero-salary active employee used to witness the ledger identity. -/
def empZero : Employee :=
  { id := "Z", salary := 0, hourly_rate := none, pay_frequency := .biweekly,
    filing_status := "single", w4_allowances := 0, status := .active }

/-- Payroll result of a zero-salary employee with no deductions. -/
def resZero : PayrollResult :=
  { gross := 0, regular_hours := none, overtime_hours := none,
    pre_tax_deductions := 0, taxable_gross := 0, federal_tax := 0,
    state_tax := 0, ss_tax := 0, medicare_tax := 0, post_tax_deductions := 0,
    total_taxes := 0, net := 0 }

/-- Salaried biweekly employee for the bulk batch, with the given id and
lifecycle status. -/
def bulkEmp (i : String) (st : EmployeeStatus) : Employee :=
  { id := i, salary := 0, hourly_rate := none, pay_frequency := .biweekly,
    filing_status := "single", w4_allowances := 1, status := st }

/-- Batch of five employees of which exactly one is terminated. -/
def batch7 : List (Employee × List Deduction) :=
  [(bulkEmp "E1" .active, []), (bulkEmp "E2" .active, []),
   (bulkEmp "E3" .terminated, []), (bulkEmp "E4" .active, []),
   (bulkEmp "E5" .active, [])]

/-- String comparisons appearing in the filing-status dispatch. -/
lemma str_hoh_single : (("head_of_household":String) = "single") = False :=
  eq_false (by decide)

/-- String comparisons appearing in the filing-status dispatch. -/
lemma str_hoh_married : (("head_of_household":String) = "married") = False :=
  eq_false (by decide)

/-- String comparisons appearing in the filing-status dispatch. -/
lemma str_single_married : (("single":String) = "married") = False :=
  eq_false (by decide)

/-- Net pay of an active bulk-batch employee evaluates to the zero
result. -/
lemma calc_bulk_active (i : String) :
    calculate_net_pay (bulkEmp i EmployeeStatus.active) [] none none = some resZero := by
  have hst : (bulkEmp i EmployeeStatus.active).status = EmployeeStatus.active := rfl
  have hfs : (bulkEmp i EmployeeStatus.active).filing_status = "single" := rfl
  have hw4 : (bulkEmp i EmployeeStatus.active).w4_allowances = 1 := rfl
  have hytd : (bulkEmp i EmployeeStatus.active).ytd_ss_tax = 0 := rfl
  have hpf : (bulkEmp i EmployeeStatus.active).pay_frequency = PayFrequency.biweekly := rfl
  have hsal : (bulkEmp i EmployeeStatus.active).salary = 0 := rfl
  have hhr : (bulkEmp i EmployeeStatus.active).hourly_rate = none := rfl
  have hgross : grossCalc (bulkEmp i EmployeeStatus.active) none none = (0, none, none) := by
    norm_num [grossCalc, hhr, Employee.period_gross, hpf, hsal,
      PayFrequency.periods_per_year, quantHE, roundHalfEven, Int.fract, round_eq]
  have hwt : withhold_taxes 0 0 "single" 1 0 = ⟨0, 0, 0⟩ := by
    norm_num [withhold_taxes, bracketTax, STANDARD_DEDUCTIONS_get,
      W4_ALLOWANCE_2024, FEDERAL_BRACKETS_SINGLE_2024, FEDERAL_BRACKETS_MFJ_2024,
      quantHU, roundHalfUp, SS_RATE, SS_WAGE_BASE, MEDICARE_RATE,
      ADDITIONAL_MEDICARE_RATE, ADDITIONAL_MEDICARE_THRESHOLD,
      Int.fract, round_eq, min_def, max_def]
  norm_num [calculate_net_pay, hst, hfs, hw4, hytd, hpf, hgross, hwt,
    preTaxTotal, postTaxTotal, resZero, PayFrequency.periods_per_year,
    quantHU, roundHalfUp, Int.fract, round_eq]

/-- Net pay of a terminated bulk-batch employee is refused. -/
lemma calc_bulk_term (i : String) :
    calculate_net_pay (bulkEmp i EmployeeStatus.terminated) [] none none = none := by
  simp [calculate_net_pay, bulkEmp]

/-! Claim theorems. -/

/-- Claim C1: for every PayrollResult produced by `calculate_net_pay`, net
pay equals gross minus the pre-tax deduction total minus the sum of
federal, state, Social Security and Medicare taxes minus the post-tax
deduction total, exactly. -/
theorem C1_ledger_identity (e : Employee) (deds : List Deduction)
    (hours overtime_hours : Option ℚ) (r : PayrollResult)
    (h : calculate_net_pay e deds hours overtime_hours = some r) :
    r.net = r.gross - r.pre_tax_deductions
      - (r.federal_tax + r.state_tax + r.ss_tax + r.medicare_tax)
      - r.post_tax_deductions := by
  unfold calculate_net_pay at h
  split at h
  · injection h with h
    subst h
    dsimp only
    ring
  · exact absurd h (by simp)

/-- Claim C1 witness: the ledger identity instantiated at a concrete
zero-salary employee. -/
theorem C1_ledger_identity_witness :
    calculate_net_pay empZero [] none none = some resZero ∧
    resZero.net = resZero.gross - resZero.pre_tax_deductions
      - (resZero.federal_tax + resZero.state_tax + resZero.ss_tax + resZero.medicare_tax)
      - resZero.post_tax_deductions :=
  ⟨by
    norm_num [calculate_net_pay, grossCalc, Employee.period_gross, empZero, resZero,
      preTaxTotal, postTaxTotal, withhold_taxes, bracketTax, STANDARD_DEDUCTIONS_get,
      W4_ALLOWANCE_2024, FEDERAL_BRACKETS_SINGLE_2024, FEDERAL_BRACKETS_MFJ_2024,
      quantHU, quantHE, roundHalfUp, roundHalfEven, SS_RATE, SS_WAGE_BASE,
      MEDICARE_RATE, ADDITIONAL_MEDICARE_RATE, ADDITIONAL_MEDICARE_THRESHOLD,
      PayFrequency.periods_per_year, Int.fract, round_eq, min_def, max_def],
   C1_ledger_identity empZero [] none none resZero (by
    norm_num [calculate_net_pay, grossCalc, Employee.period_gross, empZero, resZero,
      preTaxTotal, postTaxTotal, withhold_taxes, bracketTax, STANDARD_DEDUCTIONS_get,
      W4_ALLOWANCE_2024, FEDERAL_BRACKETS_SINGLE_2024, FEDERAL_BRACKETS_MFJ_2024,
      quantHU, quantHE, roundHalfUp, roundHalfEven, SS_RATE, SS_WAGE_BASE,
      MEDICARE_RATE, ADDITIONAL_MEDICARE_RATE, ADDITIONAL_MEDICARE_THRESHOLD,
      PayFrequency.periods_per_year, Int.fract, round_eq, min_def, max_def])⟩

/-- Claim C2 (refuted on the code): the source divides the annual tax by
the hardcoded constant 26, so a weekly employee (52 periods per year) with
annual tax 3740.00 is withheld 143.85 per period, not the 71.92 that the
claimed division by the actual period count yields. -/
theorem C2_hardcoded_divisor :
    (calculate_net_pay emp2 [] none none).map PayrollResult.federal_tax
        = some (14385/100 : ℚ) ∧
    quantHU (bracketTax
        (max 0 ((52000:ℚ) - W4_ALLOWANCE_2024 * 1 - STANDARD_DEDUCTIONS_get "single"))
        FEDERAL_BRACKETS_SINGLE_2024
        / (emp2.pay_frequency.periods_per_year : ℚ)) = (7192/100 : ℚ) ∧
    (14385/100 : ℚ) ≠ (7192/100 : ℚ) := by
  refine ⟨?_, ?_, by norm_num⟩ <;>
    norm_num [calculate_net_pay, grossCalc, Employee.period_gross, emp2,
      preTaxTotal, postTaxTotal, withhold_taxes, bracketTax, STANDARD_DEDUCTIONS_get,
      W4_ALLOWANCE_2024, FEDERAL_BRACKETS_SINGLE_2024, FEDERAL_BRACKETS_MFJ_2024,
      quantHU, quantHE, roundHalfUp, roundHalfEven, SS_RATE, SS_WAGE_BASE,
      MEDICARE_RATE, ADDITIONAL_MEDICARE_RATE, ADDITIONAL_MEDICARE_THRESHOLD,
      PayFrequency.periods_per_year, Int.fract, round_eq, min_def, max_def]

/-- Claim C3: the Social Security component of `withhold_taxes` equals the
capped taxable portion times the SS rate rounded half-up to the cent, and
is exactly zero once the supplied YTD figure is at or above the wage
base. -/
theorem C3_ss_wage_base_cap (gross annual_gross : ℚ) (fs : String) (w : ℤ)
    (ytd_ss : ℚ) :
    (withhold_taxes gross annual_gross fs w ytd_ss).ss
      = quantHU (min gross (max 0 (SS_WAGE_BASE - ytd_ss)) * SS_RATE) ∧
    (0 ≤ gross → SS_WAGE_BASE ≤ ytd_ss →
      (withhold_taxes gross annual_gross fs w ytd_ss).ss = 0) := by
  constructor
  · rfl
  · intro hg hy
    show quantHU (min gross (max 0 (SS_WAGE_BASE - ytd_ss)) * SS_RATE) = 0
    have h1 : max 0 (SS_WAGE_BASE - ytd_ss) = 0 := max_eq_left (by linarith)
    rw [h1, min_eq_right hg, zero_mul]
    norm_num [quantHU, roundHalfUp]

/-- Claim C3 witness: with YTD figure 170000 above the 168600 wage base and
a 5000.00 period gross, the SS tax is exactly zero. -/
theorem C3_ss_wage_base_cap_witness :
    (withhold_taxes 5000 168600 "single" 1 170000).ss = 0 :=
  (C3_ss_wage_base_cap 5000 168600 "single" 1 170000).2 (by norm_num)
    (by norm_num [SS_WAGE_BASE])

/-- Claim C4 (refuted on the code): `calculate_net_pay` passes the raw
`ytd_ss_tax` accumulator to the FICA wage-base comparison.  For an
employee whose YTD SS tax 10453.20 corresponds to YTD SS wages of exactly
the 168600 wage base, the code still charges 310.00 of SS tax on a
5000.00 period, whereas supplying the back-computed wages (tax divided by
the flat rate) yields the correct 0. -/
theorem C4_ytd_tax_passed_as_wages :
    (calculate_net_pay emp4 [] none none).map PayrollResult.ss_tax
        = some (310 : ℚ) ∧
    emp4.ytd_ss_tax / SS_RATE = 168600 ∧
    (withhold_taxes 5000 130000 "single" 1 (emp4.ytd_ss_tax / SS_RATE)).ss = 0 := by
  refine ⟨?_, ?_, ?_⟩ <;>
    norm_num [calculate_net_pay, grossCalc, Employee.period_gross, emp4,
      preTaxTotal, postTaxTotal, withhold_taxes, bracketTax, STANDARD_DEDUCTIONS_get,
      W4_ALLOWANCE_2024, FEDERAL_BRACKETS_SINGLE_2024, FEDERAL_BRACKETS_MFJ_2024,
      quantHU, quantHE, roundHalfUp, roundHalfEven, SS_RATE, SS_WAGE_BASE,
      MEDICARE_RATE, ADDITIONAL_MEDICARE_RATE, ADDITIONAL_MEDICARE_THRESHOLD,
      PayFrequency.periods_per_year, Int.fract, round_eq, min_def, max_def]

/-- Claim C5 (refuted on the code): `update_ytd` accumulates through
SQLite `REAL`, i.e. binary64 floating point.  Updating a stored YTD
accumulator of 140737488355328.00 (the dollar amount `2 ^ 47`, exactly
representable and rendered exactly by every faithful decimal formatter)
by a period amount of 0.01 loses the cent entirely: the binary64 sum
rounds back to the integer `2 ^ 47` (first conjunct), so the rendered and
stored accumulator is 140737488355328 (second conjunct), which differs
from the exact decimal sum 140737488355328.01 (third conjunct). -/
theorem C5_float_accumulation :
    dbl (dbl (140737488355328:ℚ) + dbl ((1:ℚ)/100)) = 140737488355328 ∧
    update_ytd_real 140737488355328 ((1:ℚ)/100) = 140737488355328 ∧
    (140737488355328:ℚ) ≠ 140737488355328 + 1/100 := by
  have hsum : dbl (dbl (140737488355328:ℚ) + dbl ((1:ℚ)/100)) = 140737488355328 := by
    rw [dbl_pow47, dbl_hundredth, dbl_pow47_sum]
  refine ⟨hsum, ?_, by norm_num⟩
  unfold update_ytd_real
  rw [hsum, render15_pow47]

/-- Claim C6 (refuted on the code): with an active flat pre-tax deduction
of 150.00 against a 100.00 period gross, `calculate_net_pay` raises no
error: it returns a result whose taxable gross is -50.00 and whose Social
Security tax is the negative amount -3.10. -/
theorem C6_negative_taxable_gross_not_rejected :
    (calculate_net_pay emp6 [ded6] none none).map PayrollResult.taxable_gross
        = some (-50 : ℚ) ∧
    (calculate_net_pay emp6 [ded6] none none).map PayrollResult.ss_tax
        = some (-31/10 : ℚ) := by
  have hst : emp6.status = EmployeeStatus.active := rfl
  have hfs : emp6.filing_status = "single" := rfl
  have hw4 : emp6.w4_allowances = 1 := rfl
  have hytd : emp6.ytd_ss_tax = 0 := rfl
  have hpf : emp6.pay_frequency = PayFrequency.biweekly := rfl
  have hgross : grossCalc emp6 none none = (100, none, none) := by
    norm_num [grossCalc, emp6, Employee.period_gross, PayFrequency.periods_per_year,
      quantHE, roundHalfEven, Int.fract, round_eq]
  have hpre : preTaxTotal 100 [ded6] = 150 := by
    norm_num [preTaxTotal, dedAmount, ded6, DeductionType.isPreTax]
  have hpost : postTaxTotal 100 [ded6] = 0 := by
    norm_num [postTaxTotal, dedAmount, ded6, DeductionType.isPreTax]
  have hwt : withhold_taxes (-50) (-1300) "single" 1 0 = ⟨0, -31/10, -73/100⟩ := by
    norm_num [withhold_taxes, bracketTax, STANDARD_DEDUCTIONS_get,
      W4_ALLOWANCE_2024, FEDERAL_BRACKETS_SINGLE_2024, FEDERAL_BRACKETS_MFJ_2024,
      quantHU, roundHalfUp, SS_RATE, SS_WAGE_BASE, MEDICARE_RATE,
      ADDITIONAL_MEDICARE_RATE, ADDITIONAL_MEDICARE_THRESHOLD,
      Int.fract, round_eq, min_def, max_def]
  refine ⟨?_, ?_⟩ <;>
    norm_num [calculate_net_pay, hst, hfs, hw4, hytd, hpf, hgross, hpre, hpost, hwt,
      PayFrequency.periods_per_year, quantHU, roundHalfUp, Int.fract, round_eq]

/-- Claim C7 (refuted on the code): on a batch of five employees with one
terminated, processing continues past the failure and records the
(employee id, error) pair internally, but the value `bulk_process`
returns to the caller is only the list of the four successes — the
recorded failures are not part of the returned batch result. -/
theorem C7_bulk_return_drops_failures :
    (bulk_process batch7).length = 4 ∧
    (bulk_process_full batch7).2 = [("E3", "Employee E3 is not active")] ∧
    bulk_process batch7 = (bulk_process_full batch7).1 := by
  have happ : ("Employee " ++ "E3" ++ " is not active" : String)
      = "Employee E3 is not active" := rfl
  have hid : (bulkEmp "E3" EmployeeStatus.terminated).id = "E3" := rfl
  refine ⟨?_, ?_, rfl⟩ <;>
    simp [bulk_process, bulk_process_full, batch7, calc_bulk_active, calc_bulk_term,
      hid, happ]

/-- Claim C8 counterexample: at annual income 50000 the federal
withholding for filing status head_of_household differs from the
single-filer computation, because the source applies the dedicated
21900 head-of-household standard deduction, not the single one. -/
theorem C8_hoh_has_own_standard_deduction :
    ¬ ((withhold_taxes 0 50000 "head_of_household" 0 0).federal
        = (withhold_taxes 0 50000 "single" 0 0).federal) := by
  norm_num [withhold_taxes, bracketTax, STANDARD_DEDUCTIONS_get,
    str_hoh_single, str_hoh_married, str_single_married,
    W4_ALLOWANCE_2024, FEDERAL_BRACKETS_SINGLE_2024, FEDERAL_BRACKETS_MFJ_2024,
    quantHU, roundHalfUp, Int.fract, round_eq, min_def, max_def]

/-- Claim C8 as amended: every filing status other than single and married
is taxed on the single-filer bracket schedule; a status outside the
standard-deduction table behaves exactly like single, while
head_of_household behaves like single with its income lowered by the
7300 difference between the 21900 head-of-household and 14600 single
standard deductions. -/
theorem C8_default_filing_status (gross annual_gross : ℚ) (w : ℤ) (ytd_ss : ℚ)
    (fs : String) (h1 : fs ≠ "single") (h2 : fs ≠ "married")
    (h3 : fs ≠ "head_of_household") :
    withhold_taxes gross annual_gross fs w ytd_ss
      = withhold_taxes gross annual_gross "single" w ytd_ss ∧
    withhold_taxes gross annual_gross "head_of_household" w ytd_ss
      = withhold_taxes gross (annual_gross - 7300) "single" w ytd_ss := by
  have hsm : (("single":String) = "married") = False := eq_false (by decide)
  have hss : (("single":String) = "single") = True := eq_true rfl
  have hhs : (("head_of_household":String) = "single") = False := eq_false (by decide)
  have hhm : (("head_of_household":String) = "married") = False := eq_false (by decide)
  have hhh : (("head_of_household":String) = "head_of_household") = True := eq_true rfl
  constructor
  · simp only [withhold_taxes, STANDARD_DEDUCTIONS_get, if_neg h1, if_neg h2,
      if_neg h3, hsm, hss, if_true, if_false]
  · simp only [withhold_taxes, STANDARD_DEDUCTIONS_get, hsm, hss, hhs, hhm, hhh,
      if_true, if_false]
    have harg : annual_gross - W4_ALLOWANCE_2024 * (w:ℚ) - 21900
        = annual_gross - 7300 - W4_ALLOWANCE_2024 * (w:ℚ) - 14600 := by ring
    rw [harg]

/-- Claim C8 amended witness: an unrecognized filing status and
head_of_household, both at concrete inputs. -/
theorem C8_default_filing_status_witness :
    withhold_taxes 1000 52000 "other" 1 0
      = withhold_taxes 1000 52000 "single" 1 0 ∧
    withhold_taxes 1000 52000 "head_of_household" 1 0
      = withhold_taxes 1000 (52000 - 7300) "single" 1 0 :=
  ⟨(C8_default_filing_status 1000 52000 1 0 "other" (by decide) (by decide)
      (by decide)).1,
   (C8_default_filing_status 1000 52000 1 0 "other" (by decide) (by decide)
      (by decide)).2⟩

/-- Claim C9 (refuted on the code): the salaried per-period gross is
quantized with the default half-even rounding, not half-up: at annual
salary 32098.69 biweekly the exact period gross 1234.565 settles to
1234.56, while half-up rounding yields 1234.57. -/
theorem C9_period_gross_uses_half_even :
    Employee.period_gross emp9 = 123456/100 ∧
    quantHU (emp9.salary / (emp9.pay_frequency.periods_per_year : ℚ)) = 123457/100 ∧
    (123456:ℚ)/100 ≠ (123457:ℚ)/100 := by
  refine ⟨?_, ?_, by norm_num⟩ <;>
    norm_num [Employee.period_gross, emp9, PayFrequency.periods_per_year,
      quantHU, quantHE, roundHalfUp, roundHalfEven, Int.fract, round_eq]

/-- Claim C10: for nonnegative period gross, annual gross, allowance count
and YTD figure, each of the three components returned by
`withhold_taxes` is nonnegative. -/
theorem C10_withholding_nonneg (gross annual_gross : ℚ) (fs : String) (w : ℤ)
    (ytd_ss : ℚ) (hg : 0 ≤ gross) (ha : 0 ≤ annual_gross) (hw : 0 ≤ w)
    (hy : 0 ≤ ytd_ss) :
    0 ≤ (withhold_taxes gross annual_gross fs w ytd_ss).federal ∧
    0 ≤ (withhold_taxes gross annual_gross fs w ytd_ss).ss ∧
    0 ≤ (withhold_taxes gross annual_gross fs w ytd_ss).medicare := by
  have hS : ∀ p ∈ FEDERAL_BRACKETS_SINGLE_2024, 0 ≤ p.2.2 := by
    intro p hp
    simp only [FEDERAL_BRACKETS_SINGLE_2024] at hp
    fin_cases hp <;> norm_num
  have hM : ∀ p ∈ FEDERAL_BRACKETS_MFJ_2024, 0 ≤ p.2.2 := by
    intro p hp
    simp only [FEDERAL_BRACKETS_MFJ_2024] at hp
    fin_cases hp <;> norm_num
  simp only [withhold_taxes]
  refine ⟨?_, ?_, ?_⟩
  · apply quantHU_nonneg
    apply div_nonneg _ (by norm_num)
    split
    · exact bracketTax_nonneg _ _ hM
    · exact bracketTax_nonneg _ _ hS
  · exact quantHU_nonneg (mul_nonneg (le_min hg (le_max_left _ _))
      (by norm_num [SS_RATE]))
  · have hbase : 0 ≤ quantHU (gross * MEDICARE_RATE) :=
      quantHU_nonneg (mul_nonneg hg (by norm_num [MEDICARE_RATE]))
    split
    · rename_i hthr
      have hextra : 0 ≤ quantHU (min gross (ytd_ss + gross - ADDITIONAL_MEDICARE_THRESHOLD)
          * ADDITIONAL_MEDICARE_RATE) := by
        apply quantHU_nonneg
        apply mul_nonneg _ (by norm_num [ADDITIONAL_MEDICARE_RATE])
        exact le_min hg (by linarith)
      linarith
    · exact hbase

/-- Claim C10 witness: the three components are nonnegative at a concrete
input. -/
theorem C10_withholding_nonneg_witness :
    0 ≤ (withhold_taxes 2000 52000 "single" 1 0).federal ∧
    0 ≤ (withhold_taxes 2000 52000 "single" 1 0).ss ∧
    0 ≤ (withhold_taxes 2000 52000 "single" 1 0).medicare :=
  C10_withholding_nonneg 2000 52000 "single" 1 0 (by norm_num) (by norm_num)
    (by norm_num) (by norm_num)

end Payroll
